import Mathlib

/-!
Verification of the dana-cockfight repository against its natural-language
specification.

The embedding has two layers:
* namespace `GenImage` — a shallow embedding of `src/generate-image.ts`
  (the only executable source file of the repository): argument parsing,
  request construction, response processing and the error channel, with the
  script's effects (environment lookup, the single `generateContent` call,
  file writes) made explicit as parameters and returned values.
* namespace `SpecCore` — the spec-level components that exist only in the
  specification (PairingEngine, ConferenceStateMachine); each definition there
  is marked `Modelled from the spec:`.
-/

/-- Modelled from the spec: the tag carried by a `GenerationError`
({Transient, Refused, Unknown}); no such taxonomy exists in src/. -/
inductive GenerationError where
  | Transient
  | Refused
  | Unknown
deriving Repr, DecidableEq

namespace GenImage

/-- Valid aspect ratios supported by Gemini (`VALID_ASPECT_RATIOS`,
generate-image.ts lines 24-27). -/
def VALID_ASPECT_RATIOS : List String :=
  ["1:1", "16:9", "9:16", "3:2", "2:3", "4:3", "3:4", "4:5", "5:4", "21:9"]

/-- The `Options` record built by `parseArgs` (lines 29-35).  `outputDir` and
`name` are assigned `args[++i]`, which is `undefined` when the flag is the last
argument; `none` models that `undefined`. -/
structure Options where
  prompt : String
  count : Int
  aspectRatio : String
  outputDir : Option String
  name : Option String
deriving Repr, DecidableEq

/-- `path.join(a, b)` for the two-segment uses in the script. -/
def pathJoin (a b : String) : String := a ++ "/" ++ b

/-- The defaults assigned to `options` before the argument loop (lines 45-51):
`count: 1`, `aspectRatio: "16:9"`,
`outputDir: path.join(process.cwd(), "generated-images")`, empty prompt and
name. -/
def defaultOptions (cwd : String) : Options :=
  { prompt := ""
    count := 1
    aspectRatio := "16:9"
    outputDir := some (pathJoin cwd "generated-images")
    name := some "" }

/-- Value of a character as a digit in the given base, following JavaScript
`parseInt` digit rules (decimal digits and letters). -/
def digitVal (base : Nat) (c : Char) : Option Nat :=
  let v : Option Nat :=
    if '0' ≤ c ∧ c ≤ '9' then some (c.toNat - '0'.toNat)
    else if 'a' ≤ c ∧ c ≤ 'z' then some (c.toNat - 'a'.toNat + 10)
    else if 'A' ≤ c ∧ c ≤ 'Z' then some (c.toNat - 'A'.toNat + 10)
    else none
  match v with
  | some n => if n < base then some n else none
  | none => none

/-- Accumulate the longest leading run of digits; `none` when no digit was
consumed (`NaN`). -/
def parseDigits (base : Nat) : List Char → Option Nat → Option Nat
  | [], acc => acc
  | c :: rest, acc =>
    match digitVal base c with
    | some d => parseDigits base rest (some (acc.getD 0 * base + d))
    | none => acc

/-- Model of JavaScript `parseInt(s)` with the radix argument omitted: skip
leading whitespace, optional sign, a `0x`/`0X` prefix selects base 16 and
otherwise base 10 is used, then the longest leading run of digits is parsed;
`none` models `NaN`. -/
def parseIntJS (s : String) : Option Int :=
  let cs := s.toList.dropWhile Char.isWhitespace
  let signAndRest : Int × List Char :=
    match cs with
    | '-' :: rest => (-1, rest)
    | '+' :: rest => (1, rest)
    | _ => (1, cs)
  let baseAndDigits : Nat × List Char :=
    match signAndRest.2 with
    | '0' :: 'x' :: rest => (16, rest)
    | '0' :: 'X' :: rest => (16, rest)
    | _ => (10, signAndRest.2)
  match parseDigits baseAndDigits.1 baseAndDigits.2 none with
  | some n => some (signAndRest.1 * (n : Int))
  | none => none

/-- `String.prototype.startsWith`, modelled over the character list. -/
def startsWithJS (s pre : String) : Bool := pre.toList.isPrefixOf s.toList

/-- JavaScript `Math.min` on two integers. -/
def mathMin (a b : Int) : Int := if a ≤ b then a else b

/-- JavaScript `Math.max` on two integers. -/
def mathMax (a b : Int) : Int := if a ≤ b then b else a

/-- `parseInt(args[++i]) || 1`: both `NaN` (here `none`) and `0` are falsy in
JavaScript, so they yield `1`. -/
def orOne (v : Option Int) : Int :=
  match v with
  | none => 1
  | some x => if x = 0 then 1 else x

/-- `Math.min(4, Math.max(1, parseInt(args[++i]) || 1))` (line 57). -/
def clampCount (v : Option Int) : Int := mathMin 4 (mathMax 1 (orOne v))

/-- The `for` loop of `parseArgs` over the argument vector (lines 53-70);
flags that take a value consume the following argument via `args[++i]` (when a
value flag is the last argument the consumed value is `undefined`). -/
def parseLoop : Options → List String → Options
  | o, [] => o
  | o, a :: rest =>
    if a = "--count" then
      match rest with
      | v :: rest2 => parseLoop { o with count := clampCount (parseIntJS v) } rest2
      | [] => { o with count := clampCount none }
    else if a = "--ratio" then
      match rest with
      | r :: rest2 =>
        if r ∈ VALID_ASPECT_RATIOS then parseLoop { o with aspectRatio := r } rest2
        else parseLoop o rest2
      | [] => o
    else if a = "--output" then
      match rest with
      | v :: rest2 => parseLoop { o with outputDir := some v } rest2
      | [] => { o with outputDir := none }
    else if a = "--name" then
      match rest with
      | v :: rest2 => parseLoop { o with name := some v } rest2
      | [] => { o with name := none }
    else if ¬ startsWithJS a "--" then
      parseLoop { o with prompt := a } rest
    else
      parseLoop o rest

/-- `parseArgs` (lines 37-78): `none` models `process.exit(1)` — reached when
no arguments are given or when no prompt was supplied. -/
def parseArgs (cwd : String) (args : List String) : Option Options :=
  if args = [] then none
  else
    let o := parseLoop (defaultOptions cwd) args
    if o.prompt = "" then none else some o

/-- `String.prototype.includes`, modelled over character lists: does `sub`
occur as a contiguous substring? -/
def containsSub (sub : List Char) : List Char → Bool
  | [] => sub.isEmpty
  | c :: rest => sub.isPrefixOf (c :: rest) || containsSub sub rest

/-- `mime.includes(sub)` as used on line 140. -/
def includesJS (s sub : String) : Bool := containsSub sub.toList s.toList

/-- A JavaScript `Error` value as thrown and caught in generate-image.ts.  Its
payload is the message; `tag` models the extra property a spec-style tagged
`GenerationError` would have to carry — `new Error(message)` attaches no such
property, which is all the script ever constructs, so the script's own errors
always have `tag = none`. -/
structure JsError where
  message : String
  tag : Option GenerationError
deriving Repr, DecidableEq

/-- Message of the error thrown when the API key is absent (line 84). -/
def missingKeyMessage : String := "GEMINI_API_KEY not found in .env file"

/-- Message of the error thrown when the response has no image part (line 132). -/
def noImagesMessage : String :=
  "No images were generated. The model may have refused or encountered an issue."

/-- Message of the TypeError `path.resolve(options.outputDir)` (line 112)
throws when `--output` was the last argument and `outputDir` is undefined. -/
def pathTypeErrorMessage : String :=
  "The \"paths[0]\" argument must be of type string. Received undefined"

/-- `inlineData` of a response part. -/
structure InlineData where
  mimeType : String
  data : String
deriving Repr, DecidableEq

/-- One part of the model response (`result.candidates[0].content.parts[i]`):
an optional text and an optional inline image payload. -/
structure ResponsePart where
  text : Option String
  inlineData : Option InlineData
deriving Repr, DecidableEq

/-- The response as the script consumes it:
`result.candidates?.[0]?.content?.parts || []`. -/
structure GenResponse where
  parts : List ResponsePart
deriving Repr, DecidableEq

/-- One element of the `contents` payload accepted by
`ai.models.generateContent`: the API takes text pieces and inline image pieces
(a plain string argument is the single-text-piece case). -/
inductive ContentPiece where
  | text (s : String)
  | image (bytes : String)
deriving Repr, DecidableEq

/-- The request sent to `ai.models.generateContent` (lines 100-109). -/
structure GenRequest where
  model : String
  contents : List ContentPiece
  responseModalities : List String
  aspectRatio : String
deriving Repr, DecidableEq

/-- The prompt actually sent (`apiPrompt`, lines 95-98): wrapped in a
variations request when `count > 1`. -/
def buildApiPrompt (o : Options) : String :=
  if o.count > 1 then
    "Generate " ++ toString o.count ++ " different variations of: " ++ o.prompt
  else o.prompt

/-- The request generate-image.ts builds (lines 100-109): `contents: apiPrompt`
is a single text piece; nothing else — in particular no image — is attached. -/
def buildRequest (o : Options) : GenRequest :=
  { model := "gemini-3-pro-image-preview"
    contents := [ContentPiece.text (buildApiPrompt o)]
    responseModalities := ["Text", "Image"]
    aspectRatio := o.aspectRatio }

/-- The inline-image pieces of a request's `contents` — the slot where
reference images would ride along. -/
def referenceImagesOf (r : GenRequest) : List ContentPiece :=
  r.contents.filter fun p =>
    match p with
    | ContentPiece.image _ => true
    | ContentPiece.text _ => false

/-- `part.inlineData?.mimeType?.startsWith("image/")` (line 123). -/
def isImagePart (p : ResponsePart) : Bool :=
  match p.inlineData with
  | some d => startsWithJS d.mimeType "image/"
  | none => false

/-- `imageParts` (line 123): the image parts of the response. -/
def imagePartsOf (resp : GenResponse) : List ResponsePart :=
  resp.parts.filter isImagePart

/-- `mimeType.includes("png") ? "png" : "jpg"` (line 140). -/
def extOfMime (mime : String) : String :=
  if includesJS mime "png" then "png" else "jpg"

/-- Extension chosen for an image part (its `inlineData` is always present). -/
def extOfPart (p : ResponsePart) : String :=
  match p.inlineData with
  | some d => extOfMime d.mimeType
  | none => "jpg"

/-- `options.name || "beach-party-" + timestamp` (line 141): the empty string
and undefined are both falsy. -/
def baseNameOf (o : Options) (timestamp : Nat) : String :=
  match o.name with
  | some n => if n = "" then "beach-party-" ++ toString timestamp else n
  | none => "beach-party-" ++ toString timestamp

/-- Filename of the i-th saved image (line 142): the numeric `-(i+1)` suffix
appears exactly when more than one image part came back. -/
def savedFilename (total : Nat) (base ext : String) (i : Nat) : String :=
  if total > 1 then base ++ "-" ++ toString (i + 1) ++ "." ++ ext
  else base ++ "." ++ ext

/-- Lines 122-152: response processing — throw when no image part is present
(a refusal produces a text-only response and lands here), otherwise save every
image part and return the saved paths (modelled as the list of paths written). -/
def processResponse (outputDir : String) (o : Options) (timestamp : Nat)
    (resp : GenResponse) : Except JsError (List String) :=
  if (imagePartsOf resp).length = 0 then
    Except.error ⟨noImagesMessage, none⟩
  else
    Except.ok ((imagePartsOf resp).enum.map fun q =>
      pathJoin outputDir
        (savedFilename (imagePartsOf resp).length (baseNameOf o timestamp) (extOfPart q.2) q.1))

/-- `generateImages` (lines 80-153) with its effects made explicit: `apiKey`
is the environment lookup, `capability` the `ai.models.generateContent` call,
`timestamp` is `Date.now()`.  The second component counts how many times the
underlying capability is invoked on that control path — the script has no
retry loop, so each path performs at most one call, whatever the outcome. -/
def generateImagesRun (o : Options) (apiKey : Option String) (timestamp : Nat)
    (capability : GenRequest → Except JsError GenResponse) :
    Except JsError (List String) × Nat :=
  match apiKey with
  | none => (Except.error ⟨missingKeyMessage, none⟩, 0)
  | some _ =>
    match capability (buildRequest o) with
    | Except.error e => (Except.error e, 1)
    | Except.ok resp =>
      match o.outputDir with
      | none => (Except.error ⟨pathTypeErrorMessage, none⟩, 1)
      | some dir => (processResponse dir o timestamp resp, 1)

/-- Options of a typical CLI run, used as concrete inputs in counterexamples
and witnesses. -/
def cliOptions : Options :=
  { prompt := "a rooster"
    count := 1
    aspectRatio := "16:9"
    outputDir := some "/w/generated-images"
    name := some "img" }

/-- A capability that fails transiently: the API call rejects with a
rate-limit error (a transient failure in the spec's taxonomy). -/
def rateLimitedCapability : GenRequest → Except JsError GenResponse :=
  fun _ => Except.error ⟨"429 Too Many Requests", none⟩

/-- A capability whose response is text-only: the model refused and returned
an explanation instead of an image. -/
def textOnlyCapability : GenRequest → Except JsError GenResponse :=
  fun _ => Except.ok ⟨[{ text := some "I cannot create this image.", inlineData := none }]⟩

/-- A response carrying two png image parts. -/
def twoImageResponse : GenResponse :=
  ⟨[{ text := none, inlineData := some ⟨"image/png", "AAAA"⟩ },
    { text := none, inlineData := some ⟨"image/png", "BBBB"⟩ }]⟩

end GenImage

namespace SpecCore

/-- Modelled from the spec: a Fighter — identity code, display name, free-text
description and reference asset handles (owner image, rooster image).
Missing from src/: FighterRegistry and the fighter data model exist only in
the specification. -/
structure Fighter where
  code : String
  name : String
  description : String
  ownerImage : String
  roosterImage : String
deriving Repr, DecidableEq

/-- Modelled from the spec: partition of the shuffled sequence into
consecutive pairs (indices 0-1, 2-3, 4-5). -/
def chunkPairs {α : Type} : List α → List (α × α)
  | a :: b :: rest => (a, b) :: chunkPairs rest
  | _ => []

/-- Modelled from the spec: the fighters appearing in a pairing, in order. -/
def pairingFighters {α : Type} : List (α × α) → List α
  | [] => []
  | q :: rest => q.1 :: q.2 :: pairingFighters rest

/-- Modelled from the spec: `InsufficientFightersError`. -/
inductive PairingError where
  | InsufficientFighters
deriving Repr, DecidableEq

/-- Modelled from the spec: `PairingEngine.draw` — shuffle the 6-element
sequence with the supplied random source (modelled as the reordering function
that source induces), then partition into consecutive pairs; fails with
`InsufficientFightersError` when the input is not exactly 6 elements.
Missing from src/: the PairingEngine exists only in the specification. -/
def draw (fighters : List Fighter) (shuffle : List Fighter → List Fighter) :
    Except PairingError (List (Fighter × Fighter)) :=
  if fighters.length = 6 then Except.ok (chunkPairs (shuffle fighters))
  else Except.error PairingError.InsufficientFighters

/-- Modelled from the spec: slot status {Pending, Generated, Failed}. -/
inductive SlotStatus where
  | Pending
  | Generated
  | Failed
deriving Repr, DecidableEq

/-- Modelled from the spec: the resolved output of a slot — text, optional
image, and whether the text-only fallback was used. -/
structure Artifact where
  text : String
  image : Option String
  usedFallback : Bool
deriving Repr, DecidableEq

/-- Modelled from the spec: one of the six ordered message slots. -/
structure Slot where
  round : Nat
  speaker : Fighter
  status : SlotStatus
  artifact : Option Artifact
deriving Repr, DecidableEq

/-- Modelled from the spec: a pair's ConferenceState — the ordered list of six
slots.  Missing from src/: the ConferenceStateMachine exists only in the
specification. -/
structure ConferenceState where
  slots : List Slot
deriving Repr, DecidableEq

/-- Modelled from the spec: the fresh conference for the pair (A, B): six
Pending slots, speaker alternating A,B,A,B,A,B, round numbers 0,0,1,1,2,2. -/
def initConference (A B : Fighter) : ConferenceState :=
  ⟨(List.range 6).map fun i =>
    { round := i / 2
      speaker := if i % 2 = 0 then A else B
      status := SlotStatus.Pending
      artifact := none }⟩

/-- Modelled from the spec: index and content of the slot `advance` works on —
the first slot in order that has not reached Generated (a slot whose text
generation Failed is re-attempted, not skipped, per the spec's retry note). -/
def firstUnresolved (c : ConferenceState) : Option (Nat × Slot) :=
  c.slots.enum.find? fun q => decide (q.2.status ≠ SlotStatus.Generated)

/-- Modelled from the spec: the outcome surfaced by one `advance` call —
a produced slot, a surfaced text-generation error, or
`ConferenceCompleteError`. -/
inductive AdvanceOutcome where
  | produced (s : Slot)
  | textFailed (e : GenerationError)
  | conferenceComplete
deriving Repr, DecidableEq

/-- Modelled from the spec: `advance()` — resolves the next unresolved slot
using the gateway results supplied for this call: a text failure marks the
slot Failed and surfaces the error; a text success with an image failure marks
the slot Generated with `usedFallback = true` and `image = none`; with both
successes the slot is Generated carrying the image.  When every slot is
already Generated it fails with `ConferenceCompleteError` and leaves the state
unchanged (content is never regenerated). -/
def advance (c : ConferenceState)
    (textRes : Except GenerationError String)
    (imgRes : Except GenerationError String) : ConferenceState × AdvanceOutcome :=
  match firstUnresolved c with
  | none => (c, AdvanceOutcome.conferenceComplete)
  | some (i, slot) =>
    match textRes with
    | Except.error e =>
      (⟨c.slots.set i { slot with status := SlotStatus.Failed }⟩, AdvanceOutcome.textFailed e)
    | Except.ok t =>
      match imgRes with
      | Except.ok img =>
        (⟨c.slots.set i
            { slot with status := SlotStatus.Generated, artifact := some ⟨t, some img, false⟩ }⟩,
          AdvanceOutcome.produced
            { slot with status := SlotStatus.Generated, artifact := some ⟨t, some img, false⟩ })
      | Except.error _ =>
        (⟨c.slots.set i
            { slot with status := SlotStatus.Generated, artifact := some ⟨t, none, true⟩ }⟩,
          AdvanceOutcome.produced
            { slot with status := SlotStatus.Generated, artifact := some ⟨t, none, true⟩ })

/-- A sequence of `advance` calls with the given per-call gateway results. -/
def runAdvances : ConferenceState →
    List (Except GenerationError String × Except GenerationError String) →
    ConferenceState × List AdvanceOutcome
  | c, [] => (c, [])
  | c, r :: rest =>
    match advance c r.1 r.2 with
    | (c2, out) =>
      match runAdvances c2 rest with
      | (c3, outs) => (c3, out :: outs)

/-- Speaker of a produced slot, for stating the advance-order property. -/
def outcomeSpeaker : AdvanceOutcome → Option Fighter
  | AdvanceOutcome.produced s => some s.speaker
  | _ => none

/-- Round number of a produced slot, for stating the advance-order property. -/
def outcomeRound : AdvanceOutcome → Option Nat
  | AdvanceOutcome.produced s => some s.round
  | _ => none

/-- Six advance inputs in which every text and image generation succeeds. -/
def sixSuccesses (t0 t1 t2 t3 t4 t5 u0 u1 u2 u3 u4 u5 : String) :
    List (Except GenerationError String × Except GenerationError String) :=
  [(Except.ok t0, Except.ok u0), (Except.ok t1, Except.ok u1),
   (Except.ok t2, Except.ok u2), (Except.ok t3, Except.ok u3),
   (Except.ok t4, Except.ok u4), (Except.ok t5, Except.ok u5)]

/-- A roster fighter used in concrete witnesses (spec §8 example roster). -/
def mkFighter (c : String) : Fighter :=
  { code := c, name := c, description := c
    ownerImage := c ++ "-owner.jpg", roosterImage := c ++ "-rooster.png" }

/-- The spec §8 example roster:
petro, oleg, vadym, andrew_3, roma, bohdan. -/
def exampleRoster : List Fighter :=
  [mkFighter "petro", mkFighter "oleg", mkFighter "vadym",
   mkFighter "andrew_3", mkFighter "roma", mkFighter "bohdan"]

/-- The seeded shuffle of the spec §8 example, yielding the pairing
[(petro,bohdan), (oleg,roma), (vadym,andrew_3)]. -/
def exampleShuffle : List Fighter → List Fighter :=
  fun _ =>
    [mkFighter "petro", mkFighter "bohdan", mkFighter "oleg",
     mkFighter "roma", mkFighter "vadym", mkFighter "andrew_3"]

end SpecCore

/-- Modelled from the spec: the reference assets a conference slot supplies to
image generation — the reference assets (owner and rooster photos) of both
fighters in the current pair; always a non-empty set.  Missing from src/: the
ConferenceStateMachine that would make this call exists only in the
specification. -/
def slotReferenceAssets (speaker opponent : SpecCore.Fighter) : List GenImage.ContentPiece :=
  [GenImage.ContentPiece.image speaker.ownerImage,
   GenImage.ContentPiece.image speaker.roosterImage,
   GenImage.ContentPiece.image opponent.ownerImage,
   GenImage.ContentPiece.image opponent.roosterImage]

/-- The pairing produced in the spec §8 example:
[(petro,bohdan), (oleg,roma), (vadym,andrew_3)]. -/
def SpecCore.examplePairs : List (SpecCore.Fighter × SpecCore.Fighter) :=
  [(SpecCore.mkFighter "petro", SpecCore.mkFighter "bohdan"),
   (SpecCore.mkFighter "oleg", SpecCore.mkFighter "roma"),
   (SpecCore.mkFighter "vadym", SpecCore.mkFighter "andrew_3")]
theorem GenImage.clampCount_bounds (v : Option Int) : 1 ≤ clampCount v ∧ clampCount v ≤ 4 := by
  unfold clampCount mathMin mathMax orOne
  rcases v with _ | x
  · decide
  · refine ⟨?_, ?_⟩ <;> (repeat split) <;> omega

/-- Invariant of the argument loop: the count stays in [1, 4] and the aspect
ratio stays in the valid list. -/
theorem GenImage.parseLoop_inv : ∀ (n : Nat) (args : List String), args.length ≤ n →
    ∀ o : Options,
      1 ≤ o.count → o.count ≤ 4 → o.aspectRatio ∈ VALID_ASPECT_RATIOS →
      1 ≤ (parseLoop o args).count ∧ (parseLoop o args).count ≤ 4 ∧
        (parseLoop o args).aspectRatio ∈ VALID_ASPECT_RATIOS := by
  intro n
  induction n with
  | zero =>
    intro args h o h1 h4 hr
    have hnil : args = [] := List.eq_nil_of_length_eq_zero (Nat.le_zero.mp h)
    subst hnil
    exact ⟨h1, h4, hr⟩
  | succ n ih =>
    intro args h o h1 h4 hr
    match args with
    | [] => exact ⟨h1, h4, hr⟩
    | a :: rest =>
      have hlen : rest.length ≤ n := by
        simpa using Nat.le_of_succ_le_succ h
      by_cases hc : a = "--count"
      · match rest with
        | [] =>
          simp only [parseLoop, hc, if_true]
          exact ⟨(clampCount_bounds none).1, (clampCount_bounds none).2, hr⟩
        | v :: rest2 =>
          simp only [parseLoop, hc, if_true]
          exact ih rest2 (by simpa using Nat.le_of_succ_le hlen) _
            (clampCount_bounds _).1 (clampCount_bounds _).2 hr
      · by_cases hrt : a = "--ratio"
        · match rest with
          | [] =>
            simp only [parseLoop, hc, hrt, if_false, if_true]
            exact ⟨h1, h4, hr⟩
          | r :: rest2 =>
            have hlen2 : rest2.length ≤ n := by simpa using Nat.le_of_succ_le hlen
            simp only [parseLoop, hc, hrt, if_false, if_true]
            by_cases hm : r ∈ VALID_ASPECT_RATIOS
            · simp only [hm, if_true]
              exact ih rest2 hlen2 _ h1 h4 hm
            · simp only [hm, if_false]
              exact ih rest2 hlen2 _ h1 h4 hr
        · by_cases ho : a = "--output"
          · match rest with
            | [] =>
              simp only [parseLoop, hc, hrt, ho, if_false, if_true]
              exact ⟨h1, h4, hr⟩
            | v :: rest2 =>
              simp only [parseLoop, hc, hrt, ho, if_false, if_true]
              exact ih rest2 (by simpa using Nat.le_of_succ_le hlen) _ h1 h4 hr
          · by_cases hn : a = "--name"
            · match rest with
              | [] =>
                simp only [parseLoop, hc, hrt, ho, hn, if_false, if_true]
                exact ⟨h1, h4, hr⟩
              | v :: rest2 =>
                simp only [parseLoop, hc, hrt, ho, hn, if_false, if_true]
                exact ih rest2 (by simpa using Nat.le_of_succ_le hlen) _ h1 h4 hr
            · match rest with
              | [] =>
                simp only [parseLoop, hc, hrt, ho, hn, if_false]
                split
                · exact ⟨h1, h4, hr⟩
                · exact ⟨h1, h4, hr⟩
              | v :: rest2 =>
                simp only [parseLoop, hc, hrt, ho, hn, if_false]
                split
                · exact ih (v :: rest2) hlen _ h1 h4 hr
                · exact ih (v :: rest2) hlen _ h1 h4 hr

/-- Any options record produced by `parseArgs` came out of the loop started on
the defaults. -/
theorem GenImage.parseArgs_eq (cwd : String) (args : List String) (o : Options)
    (h : parseArgs cwd args = some o) : o = parseLoop (defaultOptions cwd) args := by
  unfold parseArgs at h
  by_cases hnil : args = []
  · simp [hnil] at h
  · simp only [hnil, if_false] at h
    by_cases hp : (parseLoop (defaultOptions cwd) args).prompt = ""
    · simp [hp] at h
    · simp only [hp, if_false, Option.some.injEq] at h
      exact h.symm


/-- Claim C8: for every command-line argument list, the `count` field of the
options produced by `parseArgs` lies between 1 and 4 inclusive; a `--count`
value greater than 4 is clamped to 4, one less than 1 is clamped to 1, and a
value that does not parse as a number yields 1. -/
theorem C8_count_clamped :
    (∀ (cwd : String) (args : List String) (o : GenImage.Options),
        GenImage.parseArgs cwd args = some o → 1 ≤ o.count ∧ o.count ≤ 4) ∧
    (∀ v : Int, 4 < v → GenImage.clampCount (some v) = 4) ∧
    (∀ v : Int, v < 1 → GenImage.clampCount (some v) = 1) ∧
    GenImage.clampCount none = 1 := by
  refine ⟨?_, ?_, ?_, by decide⟩
  · intro cwd args o h
    have he := GenImage.parseArgs_eq cwd args o h
    have := GenImage.parseLoop_inv args.length args le_rfl (GenImage.defaultOptions cwd)
      (le_refl 1) (by norm_num [GenImage.defaultOptions])
      (by simp [GenImage.defaultOptions, GenImage.VALID_ASPECT_RATIOS])
    rw [he]
    exact ⟨this.1, this.2.1⟩
  · intro v hv
    simp only [GenImage.clampCount, GenImage.mathMin, GenImage.mathMax, GenImage.orOne]
    (repeat split) <;> omega
  · intro v hv
    simp only [GenImage.clampCount, GenImage.mathMin, GenImage.mathMax, GenImage.orOne]
    (repeat split) <;> omega

/-- Claim C8 witness: concrete runs — `--count 9` is clamped to 4, `--count -2`
to 1, an unparsable `--count` value yields 1, and the resulting count lies in
[1, 4]. -/
theorem C8_count_clamped_witness :
    (1 ≤ (GenImage.Options.mk "p" 4 "16:9" (some "/w/generated-images") (some "")).count ∧
      (GenImage.Options.mk "p" 4 "16:9" (some "/w/generated-images") (some "")).count ≤ 4) ∧
    GenImage.clampCount (some 9) = 4 ∧
    GenImage.clampCount (some (-2)) = 1 ∧
    GenImage.clampCount none = 1 :=
  ⟨C8_count_clamped.1 "/w" ["p", "--count", "9"]
      (GenImage.Options.mk "p" 4 "16:9" (some "/w/generated-images") (some "")) (by decide),
    C8_count_clamped.2.1 9 (by decide),
    C8_count_clamped.2.2.1 (-2) (by decide),
    C8_count_clamped.2.2.2⟩

/-- Claim C9: the `aspectRatio` field of the options produced by `parseArgs` is
always a member of `VALID_ASPECT_RATIOS`; a `--ratio` value outside the list is
silently ignored (the flag pair is a no-op, no error is reported), so the
default `16:9` is kept when no valid ratio was supplied. -/
theorem C9_ratio_valid :
    (∀ (cwd : String) (args : List String) (o : GenImage.Options),
        GenImage.parseArgs cwd args = some o →
        o.aspectRatio ∈ GenImage.VALID_ASPECT_RATIOS) ∧
    (∀ (o : GenImage.Options) (r : String) (rest : List String),
        r ∉ GenImage.VALID_ASPECT_RATIOS →
        GenImage.parseLoop o ("--ratio" :: r :: rest) = GenImage.parseLoop o rest) ∧
    (∀ cwd : String, (GenImage.defaultOptions cwd).aspectRatio = "16:9") := by
  refine ⟨?_, ?_, fun cwd => rfl⟩
  · intro cwd args o h
    have he := GenImage.parseArgs_eq cwd args o h
    have := GenImage.parseLoop_inv args.length args le_rfl (GenImage.defaultOptions cwd)
      (le_refl 1) (by norm_num [GenImage.defaultOptions])
      (by simp [GenImage.defaultOptions, GenImage.VALID_ASPECT_RATIOS])
    rw [he]
    exact this.2.2
  · intro o r rest hr
    simp only [GenImage.parseLoop, hr, if_false, reduceIte]
    rw [if_neg (by decide)]

/-- Claim C9 witness: a concrete run — `--ratio 7:3` is not a valid ratio, the
flag pair is a no-op, and the parsed options keep the default `16:9`, a member
of the valid list. -/
theorem C9_ratio_valid_witness :
    ((GenImage.Options.mk "p" 1 "16:9" (some "/w/generated-images") (some "")).aspectRatio ∈
        GenImage.VALID_ASPECT_RATIOS) ∧
    GenImage.parseLoop (GenImage.defaultOptions "/w") ("--ratio" :: "7:3" :: ["p"]) =
      GenImage.parseLoop (GenImage.defaultOptions "/w") ["p"] :=
  ⟨C9_ratio_valid.1 "/w" ["p", "--ratio", "7:3"]
      (GenImage.Options.mk "p" 1 "16:9" (some "/w/generated-images") (some "")) (by decide),
    C9_ratio_valid.2.1 (GenImage.defaultOptions "/w") "7:3" ["p"] (by decide)⟩

/-- Claim C1 counterexample: on a transient (rate-limit) failure the script
invokes the underlying capability exactly once — not more than once — and the
caller sees the error after that single attempt: no retry is performed. -/
theorem C1_counterexample :
    (GenImage.generateImagesRun GenImage.cliOptions (some "key") 0
        GenImage.rateLimitedCapability).2 = 1 ∧
    (GenImage.generateImagesRun GenImage.cliOptions (some "key") 0
        GenImage.rateLimitedCapability).1 = Except.error ⟨"429 Too Many Requests", none⟩ ∧
    ¬ 1 < (GenImage.generateImagesRun GenImage.cliOptions (some "key") 0
        GenImage.rateLimitedCapability).2 :=
  ⟨rfl, rfl, by decide⟩

/-- Claim C1 (amended): the script invokes the underlying capability exactly
once per request when the API key is present and not at all otherwise; no
failure — transient or refusal — is retried, and an error from the single call
is delivered to the caller as-is. -/
theorem C1_amended_single_attempt :
    (∀ (o : GenImage.Options) (key : String) (ts : Nat)
        (capability : GenImage.GenRequest → Except GenImage.JsError GenImage.GenResponse),
        (GenImage.generateImagesRun o (some key) ts capability).2 = 1) ∧
    (∀ (o : GenImage.Options) (ts : Nat)
        (capability : GenImage.GenRequest → Except GenImage.JsError GenImage.GenResponse),
        (GenImage.generateImagesRun o none ts capability).2 = 0) ∧
    (∀ (o : GenImage.Options) (key : String) (ts : Nat)
        (capability : GenImage.GenRequest → Except GenImage.JsError GenImage.GenResponse)
        (e : GenImage.JsError),
        capability (GenImage.buildRequest o) = Except.error e →
        (GenImage.generateImagesRun o (some key) ts capability).1 = Except.error e) := by
  refine ⟨?_, fun o ts cap => rfl, ?_⟩
  · intro o key ts cap
    unfold GenImage.generateImagesRun
    rcases cap (GenImage.buildRequest o) with e | resp
    · rfl
    · rcases o.outputDir with _ | dir <;> rfl
  · intro o key ts cap e hc
    unfold GenImage.generateImagesRun
    rcases hc2 : cap (GenImage.buildRequest o) with e2 | resp
    · rw [hc2] at hc
      simp only [Except.error.injEq] at hc
      rw [hc]
    · rw [hc2] at hc
      exact absurd hc (by simp)

/-- Claim C1 amended witness: the rate-limited run delivers the capability's
error to the caller. -/
theorem C1_amended_single_attempt_witness :
    (GenImage.generateImagesRun GenImage.cliOptions (some "key") 0
        GenImage.rateLimitedCapability).1 = Except.error ⟨"429 Too Many Requests", none⟩ :=
  C1_amended_single_attempt.2.2 GenImage.cliOptions "key" 0 GenImage.rateLimitedCapability
    ⟨"429 Too Many Requests", none⟩ rfl

/-- Claim C2 counterexample: a conference-slot invocation (pair petro-bohdan)
has a non-empty set of reference assets, yet the request the code builds
contains no image piece at all — only the prompt text — so the reference
images are not included alongside it. -/
theorem C2_counterexample :
    slotReferenceAssets (SpecCore.mkFighter "petro") (SpecCore.mkFighter "bohdan") ≠ [] ∧
    GenImage.referenceImagesOf (GenImage.buildRequest GenImage.cliOptions) = [] ∧
    (GenImage.buildRequest GenImage.cliOptions).contents =
      [GenImage.ContentPiece.text "a rooster"] :=
  ⟨by decide, rfl, rfl⟩

/-- Claim C2 (amended): every image-generation request the script builds
carries exactly one content piece — the prompt text — and never any reference
image: the script has no way to attach reference assets to the call. -/
theorem C2_amended_no_reference_images (o : GenImage.Options) :
    GenImage.referenceImagesOf (GenImage.buildRequest o) = [] ∧
    (GenImage.buildRequest o).contents =
      [GenImage.ContentPiece.text (GenImage.buildApiPrompt o)] :=
  ⟨rfl, rfl⟩

/-- Claim C3 counterexample: a failing run (the model refused and answered with
text only) delivers a plain untagged Error — its `tag` is `none`, not one of
{Transient, Refused, Unknown}. -/
theorem C3_counterexample :
    (GenImage.generateImagesRun GenImage.cliOptions (some "key") 0
        GenImage.textOnlyCapability).1 =
      Except.error ⟨GenImage.noImagesMessage, none⟩ ∧
    (GenImage.JsError.mk GenImage.noImagesMessage none).tag = none :=
  ⟨rfl, rfl⟩

/-- Claim C3 (amended): when a run fails, the caller receives a plain JS
Error — either one of the script's own untagged errors (missing key, undefined
output path, no images in the response) or the capability's error passed
through unchanged; the script never attaches a {Transient, Refused, Unknown}
tag. -/
theorem C3_amended_raw_errors (o : GenImage.Options) (key : Option String) (ts : Nat)
    (capability : GenImage.GenRequest → Except GenImage.JsError GenImage.GenResponse)
    (e : GenImage.JsError)
    (h : (GenImage.generateImagesRun o key ts capability).1 = Except.error e) :
    e = ⟨GenImage.missingKeyMessage, none⟩ ∨
    e = ⟨GenImage.pathTypeErrorMessage, none⟩ ∨
    e = ⟨GenImage.noImagesMessage, none⟩ ∨
    capability (GenImage.buildRequest o) = Except.error e := by
  rcases key with _ | k
  · left
    unfold GenImage.generateImagesRun at h
    simpa using h.symm
  · unfold GenImage.generateImagesRun at h
    rcases hc : capability (GenImage.buildRequest o) with e2 | resp
    · right; right; right
      rw [hc] at h
      simp only [Except.error.injEq] at h
      rw [h]
    · rw [hc] at h
      rcases ho : o.outputDir with _ | dir
      · rw [ho] at h
        right; left
        simpa using h.symm
      · rw [ho] at h
        unfold GenImage.processResponse at h
        by_cases hz : (GenImage.imagePartsOf resp).length = 0
        · simp only [hz, if_true, reduceIte, Except.error.injEq] at h
          right; right; left
          rw [h]
        · simp [hz] at h

/-- Claim C3 amended witness: the refused text-only run delivers the untagged
no-images error, which is one of the script's own errors. -/
theorem C3_amended_raw_errors_witness :
    (GenImage.JsError.mk GenImage.noImagesMessage none) =
        ⟨GenImage.missingKeyMessage, none⟩ ∨
    (GenImage.JsError.mk GenImage.noImagesMessage none) =
        ⟨GenImage.pathTypeErrorMessage, none⟩ ∨
    (GenImage.JsError.mk GenImage.noImagesMessage none) =
        ⟨GenImage.noImagesMessage, none⟩ ∨
    GenImage.textOnlyCapability (GenImage.buildRequest GenImage.cliOptions) =
      Except.error ⟨GenImage.noImagesMessage, none⟩ :=
  C3_amended_raw_errors GenImage.cliOptions (some "key") 0 GenImage.textOnlyCapability
    ⟨GenImage.noImagesMessage, none⟩ rfl

/-- Claim C4: `generateImages` fails (with the no-images error) exactly when
the model response contains no image part — in particular a refusal, i.e. a
text-only response, surfaces as this error — and on success it returns the
saved artifacts, one per image part. -/
theorem C4_fail_iff_no_images (dir : String) (o : GenImage.Options) (ts : Nat)
    (resp : GenImage.GenResponse) :
    (GenImage.processResponse dir o ts resp =
        Except.error ⟨GenImage.noImagesMessage, none⟩ ↔ GenImage.imagePartsOf resp = []) ∧
    (∀ paths, GenImage.processResponse dir o ts resp = Except.ok paths →
        paths.length = (GenImage.imagePartsOf resp).length ∧
        GenImage.imagePartsOf resp ≠ []) ∧
    ((∀ p ∈ resp.parts, p.inlineData = none) →
        GenImage.processResponse dir o ts resp =
          Except.error ⟨GenImage.noImagesMessage, none⟩) := by
  by_cases hz : (GenImage.imagePartsOf resp).length = 0
  · have hnil : GenImage.imagePartsOf resp = [] := List.length_eq_zero.mp hz
    refine ⟨?_, ?_, ?_⟩
    · simp [GenImage.processResponse, hz, hnil]
    · intro paths hp
      rw [GenImage.processResponse, if_pos hz] at hp
      exact absurd hp (by simp)
    · intro hall
      rw [GenImage.processResponse, if_pos hz]
  · refine ⟨?_, ?_, ?_⟩
    · rw [GenImage.processResponse, if_neg hz]
      simp only [iff_iff_implies_and_implies]
      constructor
      · intro hcontra
        exact absurd hcontra (by simp)
      · intro hcontra
        rw [hcontra] at hz
        simp at hz
    · intro paths hp
      rw [GenImage.processResponse, if_neg hz] at hp
      simp only [Except.ok.injEq] at hp
      refine ⟨?_, fun hnil => hz (by rw [hnil]; rfl)⟩
      rw [← hp]
      simp [List.enum_length]
    · intro hall
      exfalso
      apply hz
      have : GenImage.imagePartsOf resp = [] := by
        unfold GenImage.imagePartsOf
        apply List.filter_eq_nil_iff.mpr
        intro p hp
        unfold GenImage.isImagePart
        rw [hall p hp]
        simp
      rw [this]
      rfl

/-- Claim C4 witness: a response carrying two png image parts makes the run
succeed with two paths; a success hypothesis is discharged concretely. -/
theorem C4_fail_iff_no_images_witness :
    (["/w/generated-images/img-1.png", "/w/generated-images/img-2.png"] :
        List String).length = (GenImage.imagePartsOf GenImage.twoImageResponse).length ∧
    GenImage.imagePartsOf GenImage.twoImageResponse ≠ [] :=
  (C4_fail_iff_no_images "/w/generated-images" GenImage.cliOptions 0
      GenImage.twoImageResponse).2.1
    ["/w/generated-images/img-1.png", "/w/generated-images/img-2.png"] rfl

/-- Claim C10: on every successful run the result holds exactly one saved path
per image part found in the response — independent of the requested count,
which may differ from the number of images returned — and the filename carries
the numeric `-i` suffix exactly when more than one image came back. -/
theorem C10_one_path_per_image (dir : String) (o : GenImage.Options) (ts : Nat)
    (resp : GenImage.GenResponse) (paths : List String)
    (h : GenImage.processResponse dir o ts resp = Except.ok paths) :
    paths.length = (GenImage.imagePartsOf resp).length ∧
    (∀ c : Int, GenImage.processResponse dir { o with count := c } ts resp =
        Except.ok paths) ∧
    (∀ (base ext : String) (i : Nat), (GenImage.imagePartsOf resp).length ≤ 1 →
        GenImage.savedFilename (GenImage.imagePartsOf resp).length base ext i =
          base ++ "." ++ ext) ∧
    (∀ (base ext : String) (i : Nat), 1 < (GenImage.imagePartsOf resp).length →
        GenImage.savedFilename (GenImage.imagePartsOf resp).length base ext i =
          base ++ "-" ++ toString (i + 1) ++ "." ++ ext) := by
  refine ⟨?_, fun c => h, ?_, ?_⟩
  · by_cases hz : (GenImage.imagePartsOf resp).length = 0
    · rw [GenImage.processResponse, if_pos hz] at h
      exact absurd h (by simp)
    · rw [GenImage.processResponse, if_neg hz] at h
      simp only [Except.ok.injEq] at h
      rw [← h]
      simp [List.enum_length]
  · intro base ext i hle
    rw [GenImage.savedFilename, if_neg (by omega)]
  · intro base ext i hgt
    rw [GenImage.savedFilename, if_pos hgt]

/-- Claim C10 witness: the two-image response yields two paths, and its
filenames carry the numeric suffix; the hypotheses are discharged concretely. -/
theorem C10_one_path_per_image_witness :
    (["/w/generated-images/img-1.png", "/w/generated-images/img-2.png"] :
        List String).length = (GenImage.imagePartsOf GenImage.twoImageResponse).length ∧
    GenImage.savedFilename (GenImage.imagePartsOf GenImage.twoImageResponse).length
        "img" "png" 0 = "img" ++ "-" ++ toString (0 + 1) ++ "." ++ "png" :=
  ⟨(C10_one_path_per_image "/w/generated-images" GenImage.cliOptions 0
      GenImage.twoImageResponse
      ["/w/generated-images/img-1.png", "/w/generated-images/img-2.png"] rfl).1,
    (C10_one_path_per_image "/w/generated-images" GenImage.cliOptions 0
      GenImage.twoImageResponse
      ["/w/generated-images/img-1.png", "/w/generated-images/img-2.png"] rfl).2.2.2
      "img" "png" 0 (by decide)⟩

/-- Flattening the consecutive-pair partition of an even-length list gives the
list back. -/
theorem SpecCore.pairingFighters_chunkPairs {α : Type} :
    ∀ (n : Nat) (l : List α), l.length ≤ n → l.length % 2 = 0 →
      pairingFighters (chunkPairs l) = l := by
  intro n
  induction n with
  | zero =>
    intro l h he
    have : l = [] := List.eq_nil_of_length_eq_zero (Nat.le_zero.mp h)
    subst this
    rfl
  | succ n ih =>
    intro l h he
    match l with
    | [] => rfl
    | [a] => simp at he
    | a :: b :: rest =>
      have h2 : rest.length ≤ n := by
        simp only [List.length_cons] at h
        omega
      have he2 : rest.length % 2 = 0 := by
        simp only [List.length_cons] at he
        omega
      simp only [chunkPairs, pairingFighters]
      rw [ih rest h2 he2]

/-- The flattened pairing has twice as many fighters as there are pairs. -/
theorem SpecCore.pairingFighters_length {α : Type} :
    ∀ ps : List (α × α), (pairingFighters ps).length = 2 * ps.length := by
  intro ps
  induction ps with
  | nil => rfl
  | cons q rest ih =>
    simp only [pairingFighters, List.length_cons, ih]
    omega

/-- Claim C6: every draw over a 6-fighter roster whose random source reorders
the roster (any permutation) yields exactly 3 pairs — the consecutive
partition (0-1, 2-3, 4-5) of the shuffled sequence — in which the fighters of
the roster appear exactly once each: no duplicates, no omissions. -/
theorem C6_draw_perfect_matching (fighters : List SpecCore.Fighter)
    (shuffle : List SpecCore.Fighter → List SpecCore.Fighter)
    (pairs : List (SpecCore.Fighter × SpecCore.Fighter))
    (hperm : (shuffle fighters).Perm fighters)
    (hdraw : SpecCore.draw fighters shuffle = Except.ok pairs) :
    pairs.length = 3 ∧
    (SpecCore.pairingFighters pairs).Perm fighters ∧
    (fighters.Nodup → ∀ f ∈ fighters, (SpecCore.pairingFighters pairs).count f = 1) := by
  unfold SpecCore.draw at hdraw
  by_cases h6 : fighters.length = 6
  · rw [if_pos h6] at hdraw
    simp only [Except.ok.injEq] at hdraw
    subst hdraw
    have hlen : (shuffle fighters).length = 6 := hperm.length_eq.trans h6
    have heven : (shuffle fighters).length % 2 = 0 := by omega
    have hflat := SpecCore.pairingFighters_chunkPairs (shuffle fighters).length
      (shuffle fighters) le_rfl heven
    refine ⟨?_, ?_, ?_⟩
    · have hpl := SpecCore.pairingFighters_length (SpecCore.chunkPairs (shuffle fighters))
      rw [hflat, hlen] at hpl
      omega
    · rw [hflat]
      exact hperm
    · intro hnd f hf
      rw [hflat, hperm.count_eq]
      exact List.count_eq_one_of_mem hnd hf
  · rw [if_neg h6] at hdraw
    exact absurd hdraw (by simp)

/-- Claim C6 witness: the spec §8 example — the seeded shuffle of the roster
[petro, oleg, vadym, andrew_3, roma, bohdan] draws the pairing
[(petro,bohdan), (oleg,roma), (vadym,andrew_3)], a perfect matching. -/
theorem C6_draw_perfect_matching_witness :
    SpecCore.examplePairs.length = 3 ∧
    (SpecCore.pairingFighters SpecCore.examplePairs).Perm SpecCore.exampleRoster ∧
    (SpecCore.exampleRoster.Nodup → ∀ f ∈ SpecCore.exampleRoster,
        (SpecCore.pairingFighters SpecCore.examplePairs).count f = 1) :=
  C6_draw_perfect_matching SpecCore.exampleRoster SpecCore.exampleShuffle
    SpecCore.examplePairs (by decide) rfl

/-- Claim C7: from a fresh conference for the pair (A, B), six advances in
which text and image generation succeed produce the six slots in strict order
with speakers alternating A,B,A,B,A,B and round numbers 0,0,1,1,2,2; every
advance after that fails with ConferenceCompleteError and leaves the state
unchanged — content is never regenerated. -/
theorem C7_advance_order (A B : SpecCore.Fighter)
    (t0 t1 t2 t3 t4 t5 u0 u1 u2 u3 u4 u5 : String)
    (x y : Except GenerationError String) :
    ((SpecCore.runAdvances (SpecCore.initConference A B)
        (SpecCore.sixSuccesses t0 t1 t2 t3 t4 t5 u0 u1 u2 u3 u4 u5)).2.map
          SpecCore.outcomeSpeaker =
        [some A, some B, some A, some B, some A, some B]) ∧
    ((SpecCore.runAdvances (SpecCore.initConference A B)
        (SpecCore.sixSuccesses t0 t1 t2 t3 t4 t5 u0 u1 u2 u3 u4 u5)).2.map
          SpecCore.outcomeRound =
        [some 0, some 0, some 1, some 1, some 2, some 2]) ∧
    SpecCore.advance (SpecCore.runAdvances (SpecCore.initConference A B)
        (SpecCore.sixSuccesses t0 t1 t2 t3 t4 t5 u0 u1 u2 u3 u4 u5)).1 x y =
      ((SpecCore.runAdvances (SpecCore.initConference A B)
          (SpecCore.sixSuccesses t0 t1 t2 t3 t4 t5 u0 u1 u2 u3 u4 u5)).1,
        SpecCore.AdvanceOutcome.conferenceComplete) :=
  ⟨rfl, rfl, rfl⟩

/-- Claim C5: when text generation succeeds but image generation fails with
any GenerationError, the slot still reaches the terminal status Generated with
usedFallback = true and image = none, keeping its round and speaker; and the
slot statuses after the degraded advance equal those after a fully successful
advance, so every subsequent slot advances exactly as it would have — an image
failure never fails or blocks the conference. -/
theorem C5_image_failure_degrades (c : SpecCore.ConferenceState) (i : Nat)
    (slot : SpecCore.Slot) (t img : String) (e : GenerationError)
    (h : SpecCore.firstUnresolved c = some (i, slot)) :
    (SpecCore.advance c (Except.ok t) (Except.error e)).2 =
      SpecCore.AdvanceOutcome.produced
        { slot with
          status := SpecCore.SlotStatus.Generated
          artifact := some ⟨t, none, true⟩ } ∧
    (SpecCore.advance c (Except.ok t) (Except.error e)).1.slots =
      c.slots.set i
        { slot with
          status := SpecCore.SlotStatus.Generated
          artifact := some ⟨t, none, true⟩ } ∧
    (SpecCore.advance c (Except.ok t) (Except.error e)).1.slots.map SpecCore.Slot.status =
      (SpecCore.advance c (Except.ok t) (Except.ok img)).1.slots.map SpecCore.Slot.status := by
  unfold SpecCore.advance
  rw [h]
  refine ⟨rfl, rfl, ?_⟩
  simp only [List.map_set]

/-- Claim C5 witness: the first advance of the petro-bohdan conference with a
refused image degrades the first slot to text-only; the unresolved-slot
hypothesis is discharged concretely. -/
theorem C5_image_failure_degrades_witness :
    (SpecCore.advance
        (SpecCore.initConference (SpecCore.mkFighter "petro") (SpecCore.mkFighter "bohdan"))
        (Except.ok "talk") (Except.error GenerationError.Refused)).2 =
      SpecCore.AdvanceOutcome.produced
        { round := 0
          speaker := SpecCore.mkFighter "petro"
          status := SpecCore.SlotStatus.Generated
          artifact := some ⟨"talk", none, true⟩ } ∧
    (SpecCore.advance
        (SpecCore.initConference (SpecCore.mkFighter "petro") (SpecCore.mkFighter "bohdan"))
        (Except.ok "talk") (Except.error GenerationError.Refused)).1.slots =
      (SpecCore.initConference (SpecCore.mkFighter "petro")
          (SpecCore.mkFighter "bohdan")).slots.set 0
        { round := 0
          speaker := SpecCore.mkFighter "petro"
          status := SpecCore.SlotStatus.Generated
          artifact := some ⟨"talk", none, true⟩ } ∧
    (SpecCore.advance
        (SpecCore.initConference (SpecCore.mkFighter "petro") (SpecCore.mkFighter "bohdan"))
        (Except.ok "talk") (Except.error GenerationError.Refused)).1.slots.map
          SpecCore.Slot.status =
      (SpecCore.advance
        (SpecCore.initConference (SpecCore.mkFighter "petro") (SpecCore.mkFighter "bohdan"))
        (Except.ok "talk") (Except.ok "img")).1.slots.map SpecCore.Slot.status :=
  C5_image_failure_degrades
    (SpecCore.initConference (SpecCore.mkFighter "petro") (SpecCore.mkFighter "bohdan"))
    0 { round := 0, speaker := SpecCore.mkFighter "petro", status := SpecCore.SlotStatus.Pending, artifact := none }
    "talk" "img" GenerationError.Refused rfl
